import Mathlib

/-!
Verification of the SudoStake dashboard session codec
(`src/lib/dashboardSession.ts`): the types `DashboardWalletType`,
`DashboardNetworkEnv`, `DashboardSession`, and the operations
`getDashboardSession`, `setDashboardSession`, `clearDashboardSession`.

Shallow embedding notes.

* JSON values produced by the browser's `JSON.parse` are modelled by the
  inductive `Json`.  A JavaScript object never holds two properties with the
  same key, and `JSON.parse` collapses duplicate keys, so `Json.obj` lists
  reachable from parsing have distinct keys; property access is modelled by
  `getField`, an association lookup returning `none` for a missing property
  (JavaScript's `undefined`).  None of the eight property names read by the
  codec collides with an `Object.prototype` or `Array.prototype` member, so
  `getField` on a non-object is `none`, matching JavaScript.
* The browser's local storage holds strings.  The codec observes a stored
  string in exactly two ways: truthiness (`!raw`) and `JSON.parse(raw)`.
  `StoredString` quotients strings by those observations: `emptyStr` is the
  one falsy string `""` (on which `JSON.parse` throws), `badJson` is any
  other string on which `JSON.parse` throws, and `good j` is any string that
  `JSON.parse` maps to the value `j`.  `JSON.stringify` of a session record
  is a non-empty string that parses back to the corresponding `Json` value
  (the record is a flat object of strings, so stringify cannot throw and
  parse∘stringify is the identity on it); it is modelled as `good` of
  `sessionToJson`.
* The environment `Env` records whether `window` is defined and the contents
  of `window.localStorage` as a total map from keys to optionally stored
  strings (`getItem` returns `null`, i.e. `none`, for an absent key).
* JavaScript exception behaviour is made explicit with `Except`:
  `getDashboardSessionE` is the body of `getDashboardSession` with the
  `try`/`catch` written out (`jsonParse` is the only throwing operation the
  function performs), and `getDashboardSession` projects it, so "never
  raises" is the statement that `getDashboardSessionE` always returns `.ok`.
-/

/-- `type DashboardWalletType = "keplr" | "ledger"`. -/
inductive DashboardWalletType
  | keplr
  | ledger
deriving DecidableEq, Repr

/-- `type DashboardNetworkEnv = "mainnet" | "testnet"`. -/
inductive DashboardNetworkEnv
  | mainnet
  | testnet
deriving DecidableEq, Repr

/-- `interface DashboardSession` — the typed session record.  The optional
field `walletName?: string` becomes `Option String`. -/
structure DashboardSession where
  walletType : DashboardWalletType
  address : String
  walletName : Option String
  chainKey : String
  chainDisplay : String
  network : DashboardNetworkEnv
  chainId : String
  signedInAt : String
deriving DecidableEq, Repr

/-- Values produced by `JSON.parse`. -/
inductive Json
  | null
  | bool (b : Bool)
  | num (n : Int)
  | str (s : String)
  | arr (elems : List Json)
  | obj (fields : List (String × Json))

/-- A string held in local storage, quotiented by the two observations the
codec makes of it: truthiness and the result of `JSON.parse`. -/
inductive StoredString
  | emptyStr
  | badJson
  | good (j : Json)

/-- The one kind of exception the codec can meet: `JSON.parse` throwing. -/
inductive JsError
  | thrown
deriving DecidableEq

/-- `!raw` — the empty string is the only falsy string. -/
def isFalsyStored : StoredString → Bool
  | .emptyStr => true
  | _ => false

/-- `JSON.parse` on a stored string: throws on `""` and on malformed text,
otherwise yields the parsed value. -/
def jsonParse : StoredString → Except JsError Json
  | .emptyStr => .error .thrown
  | .badJson => .error .thrown
  | .good j => .ok j

/-- JavaScript property access `value.name` for the codec's field names:
an association lookup on objects, `undefined` (`none`) otherwise. -/
def getField : Json → String → Option Json
  | .obj fields, name => (fields.find? (fun p => p.1 == name)).map (fun p => p.2)
  | _, _ => none

/-- `const isObjectRecord = (value) => typeof value === "object" && value !== null`.
Arrays satisfy this check (`typeof [] === "object"`); `null` is excluded
explicitly. -/
def isObjectRecord : Json → Bool
  | .null => false
  | .arr _ => true
  | .obj _ => true
  | _ => false

/-- The browser context: whether `window` is defined, and the contents of
`window.localStorage` (a stored string per key, `none` when absent). -/
structure Env where
  hasWindow : Bool
  storage : String → Option StoredString

/-- `const DASHBOARD_SESSION_KEY = "sudostake:dashboard-session"`. -/
def DASHBOARD_SESSION_KEY : String := "sudostake:dashboard-session"

/-- `window.localStorage.setItem`. -/
def setItem (st : String → Option StoredString) (key : String)
    (value : StoredString) : String → Option StoredString :=
  fun k => if k = key then some value else st k

/-- `window.localStorage.removeItem`. -/
def removeItem (st : String → Option StoredString) (key : String) :
    String → Option StoredString :=
  fun k => if k = key then none else st k

/-- JavaScript's strict comparison `value === "lit"` for an (optional) JSON
value against a string literal: true exactly when the value is that string.
No coercion: `undefined`, numbers, etc. never compare equal. -/
def jsonIsStr (o : Option Json) (lit : String) : Bool :=
  match o with
  | some (.str s) => s == lit
  | _ => false

/-- The guard `if (walletType !== "keplr" && walletType !== "ledger") return null;`
as a decoder: only the exact strings pass, no coercion. -/
def decodeWalletType (o : Option Json) : Option DashboardWalletType :=
  if jsonIsStr o "keplr" then some .keplr
  else if jsonIsStr o "ledger" then some .ledger
  else none

/-- The guard `if (network !== "mainnet" && network !== "testnet") return null;`. -/
def decodeNetwork (o : Option Json) : Option DashboardNetworkEnv :=
  if jsonIsStr o "mainnet" then some .mainnet
  else if jsonIsStr o "testnet" then some .testnet
  else none

/-- The guard `if (typeof x !== "string" || x.length === 0) return null;`
used for `address`, `chainKey`, `chainDisplay`, `chainId`, `signedInAt`. -/
def decodeRequiredString : Option Json → Option String
  | some (.str s) => if s = "" then none else some s
  | _ => none

/-- The guard `if (walletName !== undefined && typeof walletName !== "string") return null;`:
absence is allowed, a present value must be a string. -/
def decodeOptionalString : Option Json → Option (Option String)
  | none => some none
  | some (.str s) => some (some s)
  | some _ => none

/-- The body of `getDashboardSession` after `JSON.parse` succeeded: the
`isObjectRecord` check, then the eight sequential field guards (each early
`return null` is a failing `Option.bind`), then the record assembly. -/
def validateSession (parsed : Json) : Option DashboardSession :=
  if isObjectRecord parsed then
    (decodeWalletType (getField parsed "walletType")).bind fun walletType =>
    (decodeRequiredString (getField parsed "address")).bind fun address =>
    (decodeOptionalString (getField parsed "walletName")).bind fun walletName =>
    (decodeRequiredString (getField parsed "chainKey")).bind fun chainKey =>
    (decodeRequiredString (getField parsed "chainDisplay")).bind fun chainDisplay =>
    (decodeNetwork (getField parsed "network")).bind fun network =>
    (decodeRequiredString (getField parsed "chainId")).bind fun chainId =>
    (decodeRequiredString (getField parsed "signedInAt")).bind fun signedInAt =>
    some { walletType, address, walletName, chainKey, chainDisplay,
           network, chainId, signedInAt }
  else none

/-- `getDashboardSession` with JavaScript exception behaviour explicit:
the `try` block is `jsonParse` followed by validation, and the trailing
`match` on `.error` is the `catch { return null }`. -/
def getDashboardSessionE (env : Env) : Except JsError (Option DashboardSession) :=
  if env.hasWindow = false then .ok none
  else
    match env.storage DASHBOARD_SESSION_KEY with
    | none => .ok none
    | some raw =>
      if isFalsyStored raw then .ok none
      else
        match (jsonParse raw).map validateSession with
        | .ok v => .ok v
        | .error _ => .ok none

/-- `export const getDashboardSession = (): DashboardSession | null => ...`. -/
def getDashboardSession (env : Env) : Option DashboardSession :=
  match getDashboardSessionE env with
  | .ok v => v
  | .error _ => none

/-- The string mapped to by a `DashboardWalletType` on the wire. -/
def walletTypeToString : DashboardWalletType → String
  | .keplr => "keplr"
  | .ledger => "ledger"

/-- The string mapped to by a `DashboardNetworkEnv` on the wire. -/
def networkToString : DashboardNetworkEnv → String
  | .mainnet => "mainnet"
  | .testnet => "testnet"

/-- The `Json` value that `JSON.parse(JSON.stringify(session))` yields:
a flat object of the session's fields, with `walletName` omitted when it is
`undefined` (`JSON.stringify` drops `undefined`-valued properties). -/
def sessionToJson (s : DashboardSession) : Json :=
  .obj ([("walletType", Json.str (walletTypeToString s.walletType)),
         ("address", Json.str s.address)]
    ++ (match s.walletName with
        | some n => [("walletName", Json.str n)]
        | none => [])
    ++ [("chainKey", Json.str s.chainKey),
        ("chainDisplay", Json.str s.chainDisplay),
        ("network", Json.str (networkToString s.network)),
        ("chainId", Json.str s.chainId),
        ("signedInAt", Json.str s.signedInAt)])

/-- `export const setDashboardSession = (session) => ...`: no-op without
`window`, otherwise `setItem` of the serialized record under the fixed key. -/
def setDashboardSession (session : DashboardSession) (env : Env) : Env :=
  if env.hasWindow = false then env
  else { env with
         storage := setItem env.storage DASHBOARD_SESSION_KEY
                      (.good (sessionToJson session)) }

/-- `export const clearDashboardSession = () => ...`: no-op without `window`,
otherwise `removeItem` of the fixed key. -/
def clearDashboardSession (env : Env) : Env :=
  if env.hasWindow = false then env
  else { env with storage := removeItem env.storage DASHBOARD_SESSION_KEY }

/-- The validity constraints the TypeScript type cannot express: the five
required string fields are non-empty.  (`walletType`, `network` and the
optionality of `walletName` are enforced by the Lean types themselves.) -/
def DashboardSession.Valid (s : DashboardSession) : Prop :=
  s.address ≠ "" ∧ s.chainKey ≠ "" ∧ s.chainDisplay ≠ "" ∧
  s.chainId ≠ "" ∧ s.signedInAt ≠ ""

instance (s : DashboardSession) : Decidable s.Valid := by
  unfold DashboardSession.Valid; infer_instance

/-- The ways a required string field can fail its guard: the property is
missing (`undefined`), present as the empty string, or present with a
non-string value. -/
def badRequiredField (o : Option Json) : Prop :=
  o = none ∨ o = some (Json.str "") ∨ ∃ v, o = some v ∧ ∀ str, v ≠ Json.str str

/-- The property names of the `DashboardSession` interface. -/
def sessionSchemaKeys : List String :=
  ["walletType", "address", "walletName", "chainKey", "chainDisplay",
   "network", "chainId", "signedInAt"]

/-- A browser context with `window` defined and exactly the fixed session
key populated. -/
def envWith (v : StoredString) : Env :=
  ⟨true, fun k => if k = DASHBOARD_SESSION_KEY then some v else none⟩

/-- A browser context with `window` defined and empty local storage. -/
def emptyEnv : Env := ⟨true, fun _ => none⟩

/-- A context without `window` (e.g. server-side rendering). -/
def noWindowEnv : Env := ⟨false, fun _ => none⟩

/-- A well-formed stored record (scenario A of the spec). -/
def sampleJson : Json :=
  .obj [("walletType", .str "keplr"), ("address", .str "cosmos1abc"),
        ("chainKey", .str "archway"), ("chainDisplay", .str "Archway"),
        ("network", .str "mainnet"), ("chainId", .str "archway-1"),
        ("signedInAt", .str "2024-01-01T00:00:00.000Z")]

/-- The session encoded by `sampleJson` (`walletName` absent). -/
def sampleSession : DashboardSession :=
  ⟨.keplr, "cosmos1abc", none, "archway", "Archway", .mainnet, "archway-1",
   "2024-01-01T00:00:00.000Z"⟩

/-- A second valid session, with `walletName` present. -/
def sampleSession2 : DashboardSession :=
  ⟨.ledger, "cosmos1xyz", some "Main Account", "cosmoshub", "Cosmos Hub",
   .testnet, "theta-testnet-001", "2024-02-02T12:00:00.000Z"⟩

/-- A record with valid values for every schema field plus one field that is
not part of the schema. -/
def extraFieldJson : Json :=
  .obj [("walletType", .str "keplr"), ("address", .str "cosmos1abc"),
        ("chainKey", .str "archway"), ("chainDisplay", .str "Archway"),
        ("network", .str "mainnet"), ("chainId", .str "archway-1"),
        ("signedInAt", .str "2024-01-01T00:00:00.000Z"),
        ("extra", .str "surprise")]

example :
    validateSession (.obj [("walletType", .str "keplr"),
      ("address", .str "cosmos1abc"), ("chainKey", .str "archway"),
      ("chainDisplay", .str "Archway"), ("network", .str "mainnet"),
      ("chainId", .str "archway-1"),
      ("signedInAt", .str "2024-01-01T00:00:00.000Z")]) =
    some { walletType := .keplr, address := "cosmos1abc", walletName := none,
           chainKey := "archway", chainDisplay := "Archway",
           network := .mainnet, chainId := "archway-1",
           signedInAt := "2024-01-01T00:00:00.000Z" } := rfl

example :
    validateSession (.obj [("walletType", .str "trezor"),
      ("address", .str "x"), ("chainKey", .str "c"),
      ("chainDisplay", .str "d"), ("network", .str "mainnet"),
      ("chainId", .str "i"), ("signedInAt", .str "t")]) = none := rfl

example :
    getDashboardSession ⟨true, fun _ => some .badJson⟩ = none := rfl

/-! ### Characterizations of the decoders -/

lemma jsonIsStr_iff {o : Option Json} {lit : String} :
    jsonIsStr o lit = true ↔ o = some (.str lit) := by
  cases o with
  | none => simp [jsonIsStr]
  | some j => cases j <;> simp [jsonIsStr]

lemma decodeWalletType_eq_some {o : Option Json} {wt : DashboardWalletType}
    (h : decodeWalletType o = some wt) :
    o = some (.str (walletTypeToString wt)) := by
  unfold decodeWalletType at h
  split_ifs at h with h1 h2
  · cases h; exact jsonIsStr_iff.mp h1
  · cases h; exact jsonIsStr_iff.mp h2

lemma decodeWalletType_eq_none {o : Option Json}
    (h1 : o ≠ some (.str "keplr")) (h2 : o ≠ some (.str "ledger")) :
    decodeWalletType o = none := by
  unfold decodeWalletType
  rw [if_neg, if_neg]
  · intro h; exact h2 (jsonIsStr_iff.mp h)
  · intro h; exact h1 (jsonIsStr_iff.mp h)

lemma decodeNetwork_eq_some {o : Option Json} {nw : DashboardNetworkEnv}
    (h : decodeNetwork o = some nw) :
    o = some (.str (networkToString nw)) := by
  unfold decodeNetwork at h
  split_ifs at h with h1 h2
  · cases h; exact jsonIsStr_iff.mp h1
  · cases h; exact jsonIsStr_iff.mp h2

lemma decodeNetwork_eq_none {o : Option Json}
    (h1 : o ≠ some (.str "mainnet")) (h2 : o ≠ some (.str "testnet")) :
    decodeNetwork o = none := by
  unfold decodeNetwork
  rw [if_neg, if_neg]
  · intro h; exact h2 (jsonIsStr_iff.mp h)
  · intro h; exact h1 (jsonIsStr_iff.mp h)

lemma decodeRequiredString_eq_some {o : Option Json} {a : String}
    (h : decodeRequiredString o = some a) :
    o = some (.str a) ∧ a ≠ "" := by
  cases o with
  | none => simp [decodeRequiredString] at h
  | some j =>
    cases j <;> simp [decodeRequiredString] at h
    case str s =>
      rcases h with ⟨hs, hsa⟩
      subst hsa
      exact ⟨rfl, hs⟩

lemma decodeRequiredString_str {a : String} (h : a ≠ "") :
    decodeRequiredString (some (.str a)) = some a := by
  simp [decodeRequiredString, h]

lemma decodeOptionalString_eq_some {o : Option Json} {w : Option String}
    (h : decodeOptionalString o = some w) :
    (o = none ∧ w = none) ∨ ∃ n, o = some (.str n) ∧ w = some n := by
  cases o with
  | none =>
    left
    simp [decodeOptionalString] at h
    exact ⟨rfl, h.symm⟩
  | some j =>
    cases j <;> simp [decodeOptionalString] at h
    case str s => right; exact ⟨s, rfl, h.symm⟩

lemma decodeOptionalString_not_str {o : Option Json} {v : Json}
    (ho : o = some v) (hv : ∀ str, v ≠ .str str) :
    decodeOptionalString o = none := by
  subst ho
  cases v <;> first
    | rfl
    | (exact absurd rfl (hv _))

/-! ### Characterization of the validator and of `load` -/

lemma validateSession_eq_some_iff {j : Json} {s : DashboardSession} :
    validateSession j = some s ↔
      isObjectRecord j = true ∧
      decodeWalletType (getField j "walletType") = some s.walletType ∧
      decodeRequiredString (getField j "address") = some s.address ∧
      decodeOptionalString (getField j "walletName") = some s.walletName ∧
      decodeRequiredString (getField j "chainKey") = some s.chainKey ∧
      decodeRequiredString (getField j "chainDisplay") = some s.chainDisplay ∧
      decodeNetwork (getField j "network") = some s.network ∧
      decodeRequiredString (getField j "chainId") = some s.chainId ∧
      decodeRequiredString (getField j "signedInAt") = some s.signedInAt := by
  unfold validateSession
  split
  case isTrue hrec =>
    simp only [Option.bind_eq_some, Option.some.injEq]
    constructor
    · rintro ⟨wt, hwt, addr, haddr, wn, hwn, ck, hck, cd, hcd, nw, hnw, ci,
        hci, si, hsi, hs⟩
      subst hs
      exact ⟨hrec, hwt, haddr, hwn, hck, hcd, hnw, hci, hsi⟩
    · rintro ⟨-, h1, h2, h3, h4, h5, h6, h7, h8⟩
      exact ⟨s.walletType, h1, s.address, h2, s.walletName, h3, s.chainKey,
        h4, s.chainDisplay, h5, s.network, h6, s.chainId, h7, s.signedInAt,
        h8, rfl⟩
  case isFalse hrec =>
    simp only [Bool.not_eq_true] at hrec
    simp [hrec]

lemma roundTrip {s : DashboardSession} (hvalid : s.Valid) :
    validateSession (sessionToJson s) = some s := by
  obtain ⟨ha, hck, hcd, hci, hsi⟩ := hvalid
  rcases s with ⟨wt, addr, wn, ck, cd, nw, ci, si⟩
  rw [validateSession_eq_some_iff]
  cases wn <;>
    refine ⟨rfl, ?_, ?_, ?_, ?_, ?_, ?_, ?_, ?_⟩ <;>
    first
      | (cases wt <;> rfl)
      | (cases nw <;> rfl)
      | rfl
      | (show decodeRequiredString (some (.str addr)) = some addr
         exact decodeRequiredString_str ha)
      | (show decodeRequiredString (some (.str ck)) = some ck
         exact decodeRequiredString_str hck)
      | (show decodeRequiredString (some (.str cd)) = some cd
         exact decodeRequiredString_str hcd)
      | (show decodeRequiredString (some (.str ci)) = some ci
         exact decodeRequiredString_str hci)
      | (show decodeRequiredString (some (.str si)) = some si
         exact decodeRequiredString_str hsi)

lemma getDashboardSession_eq_some_iff {env : Env} {s : DashboardSession} :
    getDashboardSession env = some s ↔
      env.hasWindow = true ∧
      ∃ j, env.storage DASHBOARD_SESSION_KEY = some (.good j) ∧
            validateSession j = some s := by
  rcases env with ⟨hw, st⟩
  unfold getDashboardSession getDashboardSessionE
  dsimp only
  cases hw
  · simp
  · cases hst : st DASHBOARD_SESSION_KEY with
    | none => simp
    | some raw =>
      cases raw with
      | emptyStr => simp [isFalsyStored, jsonParse]
      | badJson => simp [isFalsyStored, jsonParse, Except.map]
      | good j => simp [isFalsyStored, jsonParse, Except.map]

lemma badRequiredField_decode {o : Option Json} (h : badRequiredField o) :
    decodeRequiredString o = none := by
  rcases h with rfl | rfl | ⟨v, rfl, hv⟩
  · rfl
  · rfl
  · cases v <;> first
      | rfl
      | exact absurd rfl (hv _)

lemma validateSession_none_of_not_record {j : Json}
    (h : isObjectRecord j = false) : validateSession j = none := by
  unfold validateSession
  rw [h]
  rfl

lemma validateSession_none_of_walletType {j : Json}
    (h : decodeWalletType (getField j "walletType") = none) :
    validateSession j = none := by
  cases hv : validateSession j with
  | none => rfl
  | some s =>
    exfalso
    rw [validateSession_eq_some_iff] at hv
    obtain ⟨-, hwt, -⟩ := hv
    rw [h] at hwt
    exact Option.noConfusion hwt

lemma validateSession_none_of_network {j : Json}
    (h : decodeNetwork (getField j "network") = none) :
    validateSession j = none := by
  cases hv : validateSession j with
  | none => rfl
  | some s =>
    exfalso
    rw [validateSession_eq_some_iff] at hv
    obtain ⟨-, -, -, -, -, -, hnw, -⟩ := hv
    rw [h] at hnw
    exact Option.noConfusion hnw

lemma validateSession_none_of_walletName {j : Json}
    (h : decodeOptionalString (getField j "walletName") = none) :
    validateSession j = none := by
  cases hv : validateSession j with
  | none => rfl
  | some s =>
    exfalso
    rw [validateSession_eq_some_iff] at hv
    obtain ⟨-, -, -, hwn, -⟩ := hv
    rw [h] at hwn
    exact Option.noConfusion hwn

lemma validateSession_none_of_requiredString {j : Json} {name : String}
    (hname : name ∈ ["address", "chainKey", "chainDisplay", "chainId",
      "signedInAt"])
    (h : decodeRequiredString (getField j name) = none) :
    validateSession j = none := by
  cases hv : validateSession j with
  | none => rfl
  | some s =>
    exfalso
    rw [validateSession_eq_some_iff] at hv
    obtain ⟨-, -, ha, -, hck, hcd, -, hci, hsi⟩ := hv
    simp only [List.mem_cons, List.mem_singleton, List.not_mem_nil,
      or_false] at hname
    rcases hname with rfl | rfl | rfl | rfl | rfl
    · rw [h] at ha; exact Option.noConfusion ha
    · rw [h] at hck; exact Option.noConfusion hck
    · rw [h] at hcd; exact Option.noConfusion hcd
    · rw [h] at hci; exact Option.noConfusion hci
    · rw [h] at hsi; exact Option.noConfusion hsi

lemma getDashboardSession_eq_none_of_validate_none {env : Env} {j : Json}
    (hst : env.storage DASHBOARD_SESSION_KEY = some (.good j))
    (hv : validateSession j = none) :
    getDashboardSession env = none := by
  cases h : getDashboardSession env with
  | none => rfl
  | some s =>
    exfalso
    rw [getDashboardSession_eq_some_iff] at h
    obtain ⟨-, j', hj', hv'⟩ := h
    rw [hst] at hj'
    simp only [Option.some.injEq, StoredString.good.injEq] at hj'
    subst hj'
    rw [hv] at hv'
    exact Option.noConfusion hv'

lemma getDashboardSession_none_of_noWindow {env : Env}
    (h : env.hasWindow = false) : getDashboardSession env = none := by
  unfold getDashboardSession getDashboardSessionE
  rw [h]
  rfl

lemma getDashboardSession_none_of_missing {env : Env}
    (h : env.storage DASHBOARD_SESSION_KEY = none) :
    getDashboardSession env = none := by
  unfold getDashboardSession getDashboardSessionE
  rw [h]
  cases env.hasWindow <;> rfl

lemma getDashboardSession_none_of_emptyStr {env : Env}
    (h : env.storage DASHBOARD_SESSION_KEY = some .emptyStr) :
    getDashboardSession env = none := by
  unfold getDashboardSession getDashboardSessionE
  rw [h]
  cases env.hasWindow <;> rfl

lemma getDashboardSession_none_of_badJson {env : Env}
    (h : env.storage DASHBOARD_SESSION_KEY = some .badJson) :
    getDashboardSession env = none := by
  unfold getDashboardSession getDashboardSessionE
  rw [h]
  cases env.hasWindow <;> rfl

/-! ### Claims -/

/-- C1: decoding is all-or-nothing — whenever `getDashboardSession` returns a
present session, that session satisfies every field constraint of the
`DashboardSession` schema: `walletType` is exactly keplr or ledger, `network`
is exactly mainnet or testnet, `address`, `chainKey`, `chainDisplay`,
`chainId` and `signedInAt` are non-empty strings, and `walletName` is either
absent or a string; a partially valid record is never returned. -/
theorem load_all_or_nothing (env : Env) (s : DashboardSession)
    (h : getDashboardSession env = some s) :
    (s.walletType = .keplr ∨ s.walletType = .ledger) ∧
    s.address ≠ "" ∧
    (s.walletName = none ∨ ∃ n, s.walletName = some n) ∧
    s.chainKey ≠ "" ∧
    s.chainDisplay ≠ "" ∧
    (s.network = .mainnet ∨ s.network = .testnet) ∧
    s.chainId ≠ "" ∧
    s.signedInAt ≠ "" := by
  rw [getDashboardSession_eq_some_iff] at h
  obtain ⟨-, j, -, hv⟩ := h
  rw [validateSession_eq_some_iff] at hv
  obtain ⟨-, -, haddr, -, hck, hcd, -, hci, hsi⟩ := hv
  refine ⟨?_, (decodeRequiredString_eq_some haddr).2, ?_,
    (decodeRequiredString_eq_some hck).2, (decodeRequiredString_eq_some hcd).2,
    ?_, (decodeRequiredString_eq_some hci).2,
    (decodeRequiredString_eq_some hsi).2⟩
  · cases s.walletType
    · exact Or.inl rfl
    · exact Or.inr rfl
  · cases s.walletName with
    | none => exact Or.inl rfl
    | some n => exact Or.inr ⟨n, rfl⟩
  · cases s.network
    · exact Or.inl rfl
    · exact Or.inr rfl

/-- Witness for C1 at scenario A's stored record. -/
theorem load_all_or_nothing_witness :
    (sampleSession.walletType = .keplr ∨ sampleSession.walletType = .ledger) ∧
    sampleSession.address ≠ "" ∧
    (sampleSession.walletName = none ∨ ∃ n, sampleSession.walletName = some n) ∧
    sampleSession.chainKey ≠ "" ∧
    sampleSession.chainDisplay ≠ "" ∧
    (sampleSession.network = .mainnet ∨ sampleSession.network = .testnet) ∧
    sampleSession.chainId ≠ "" ∧
    sampleSession.signedInAt ≠ "" :=
  load_all_or_nothing (envWith (.good sampleJson)) sampleSession rfl

/-- C2: round-trip — for every valid session, with the storage capability
present, `setDashboardSession` followed by `getDashboardSession` returns the
same session (including the case where `walletName` is absent). -/
theorem store_load_roundTrip (env : Env) (s : DashboardSession)
    (hvalid : s.Valid) (hw : env.hasWindow = true) :
    getDashboardSession (setDashboardSession s env) = some s := by
  rw [getDashboardSession_eq_some_iff]
  refine ⟨?_, sessionToJson s, ?_, roundTrip hvalid⟩
  · simp [setDashboardSession, hw]
  · simp [setDashboardSession, hw, setItem]

/-- Witness for C2: storing a `walletName`-free session into empty storage
and reading it back. -/
theorem store_load_roundTrip_witness :
    getDashboardSession (setDashboardSession sampleSession emptyEnv) =
      some sampleSession :=
  store_load_roundTrip emptyEnv sampleSession (by decide) rfl

/-- C4: never raises — `getDashboardSessionE` (the load with JavaScript
exception behaviour explicit) returns `.ok` on every environment, and with
no storage capability `setDashboardSession` and `clearDashboardSession`
complete as silent no-ops. -/
theorem codec_never_raises (env : Env) (s : DashboardSession) :
    (∃ v, getDashboardSessionE env = .ok v) ∧
    (env.hasWindow = false →
      setDashboardSession s env = env ∧ clearDashboardSession env = env) := by
  constructor
  · rcases env with ⟨hw, st⟩
    unfold getDashboardSessionE
    dsimp only
    cases hw
    · exact ⟨none, rfl⟩
    · cases hst : st DASHBOARD_SESSION_KEY with
      | none => exact ⟨none, rfl⟩
      | some raw =>
        cases raw with
        | emptyStr => exact ⟨none, rfl⟩
        | badJson => exact ⟨none, rfl⟩
        | good j => exact ⟨validateSession j, rfl⟩
  · intro h
    constructor
    · unfold setDashboardSession
      rw [h]
      rfl
    · unfold clearDashboardSession
      rw [h]
      rfl

/-- Witness for C4 in a windowless context. -/
theorem codec_never_raises_witness :
    (∃ v, getDashboardSessionE noWindowEnv = .ok v) ∧
    (setDashboardSession sampleSession noWindowEnv = noWindowEnv ∧
     clearDashboardSession noWindowEnv = noWindowEnv) :=
  ⟨(codec_never_raises noWindowEnv sampleSession).1,
   (codec_never_raises noWindowEnv sampleSession).2 rfl⟩

/-- C10: determinism of load — the result of `getDashboardSession` is a
function of the capability flag and the contents of the fixed storage key
alone: two environments agreeing on those yield equal results. -/
theorem load_deterministic (e1 e2 : Env)
    (hw : e1.hasWindow = e2.hasWindow)
    (hst : e1.storage DASHBOARD_SESSION_KEY = e2.storage DASHBOARD_SESSION_KEY) :
    getDashboardSession e1 = getDashboardSession e2 := by
  unfold getDashboardSession getDashboardSessionE
  rw [hw, hst]

/-- Witness for C10: two environments with different contents away from the
fixed key produce the same load result. -/
theorem load_deterministic_witness :
    getDashboardSession ⟨true, fun _ => some (.good sampleJson)⟩ =
      getDashboardSession (envWith (.good sampleJson)) :=
  load_deterministic ⟨true, fun _ => some (.good sampleJson)⟩
    (envWith (.good sampleJson)) rfl rfl

/-- C3: rejection of malformed data — load returns absent when the stored
text is not parseable as JSON; when it parses to a non-record value (array,
string, number, boolean, null); when `walletType` is anything but the exact
strings keplr/ledger (covering missing, wrong type, and other strings alike,
with no coercion); when any required string field is missing, the empty
string, or of the wrong type; when `network` is anything but the exact
strings mainnet/testnet; and when `walletName` is present but not a
string. -/
theorem load_rejects_malformed (env : Env) (j : Json) :
    (env.storage DASHBOARD_SESSION_KEY = some .badJson →
      getDashboardSession env = none) ∧
    (env.storage DASHBOARD_SESSION_KEY = some (.good j) →
      (((∀ l, j ≠ .obj l) → getDashboardSession env = none) ∧
       ((getField j "walletType" ≠ some (.str "keplr") ∧
         getField j "walletType" ≠ some (.str "ledger")) →
         getDashboardSession env = none) ∧
       (∀ name, name ∈ ["address", "chainKey", "chainDisplay", "chainId",
          "signedInAt"] → badRequiredField (getField j name) →
         getDashboardSession env = none) ∧
       ((getField j "network" ≠ some (.str "mainnet") ∧
         getField j "network" ≠ some (.str "testnet")) →
         getDashboardSession env = none) ∧
       (∀ v, getField j "walletName" = some v → (∀ str, v ≠ .str str) →
         getDashboardSession env = none))) := by
  refine ⟨getDashboardSession_none_of_badJson, fun hst => ⟨?_, ?_, ?_, ?_, ?_⟩⟩
  · intro hnotobj
    refine getDashboardSession_eq_none_of_validate_none hst ?_
    cases j with
    | obj l => exact absurd rfl (hnotobj l)
    | arr elems =>
      exact validateSession_none_of_walletType rfl
    | null => exact validateSession_none_of_not_record rfl
    | bool b => exact validateSession_none_of_not_record rfl
    | num n => exact validateSession_none_of_not_record rfl
    | str s => exact validateSession_none_of_not_record rfl
  · rintro ⟨h1, h2⟩
    exact getDashboardSession_eq_none_of_validate_none hst
      (validateSession_none_of_walletType (decodeWalletType_eq_none h1 h2))
  · intro name hname hbad
    exact getDashboardSession_eq_none_of_validate_none hst
      (validateSession_none_of_requiredString hname
        (badRequiredField_decode hbad))
  · rintro ⟨h1, h2⟩
    exact getDashboardSession_eq_none_of_validate_none hst
      (validateSession_none_of_network (decodeNetwork_eq_none h1 h2))
  · intro v hv hvs
    exact getDashboardSession_eq_none_of_validate_none hst
      (validateSession_none_of_walletName (decodeOptionalString_not_str hv hvs))

/-- Witness for C3: unparseable text (scenario B) and a stored array both
load as absent. -/
theorem load_rejects_malformed_witness :
    getDashboardSession (envWith .badJson) = none ∧
    getDashboardSession (envWith (.good (.arr [.str "keplr"]))) = none :=
  ⟨(load_rejects_malformed (envWith .badJson) .null).1 rfl,
   ((load_rejects_malformed (envWith (.good (.arr [.str "keplr"])))
      (.arr [.str "keplr"])).2 rfl).1 (fun _ h => Json.noConfusion h)⟩

/-- C9: an empty stored string is treated like a missing entry — the falsy
guard on the raw value fires, load returns absent, and the result coincides
with the result on the same environment with the entry removed, without the
parser being consulted. -/
theorem load_empty_string_as_missing (env : Env)
    (h : env.storage DASHBOARD_SESSION_KEY = some .emptyStr) :
    isFalsyStored .emptyStr = true ∧
    getDashboardSession env = none ∧
    getDashboardSession env =
      getDashboardSession ⟨env.hasWindow, removeItem env.storage
        DASHBOARD_SESSION_KEY⟩ := by
  refine ⟨rfl, getDashboardSession_none_of_emptyStr h, ?_⟩
  rw [getDashboardSession_none_of_emptyStr h]
  exact (getDashboardSession_none_of_missing (by simp [removeItem])).symm

/-- Witness for C9 with the empty string stored under the fixed key. -/
theorem load_empty_string_as_missing_witness :
    isFalsyStored .emptyStr = true ∧
    getDashboardSession (envWith .emptyStr) = none ∧
    getDashboardSession (envWith .emptyStr) =
      getDashboardSession ⟨(envWith .emptyStr).hasWindow,
        removeItem (envWith .emptyStr).storage DASHBOARD_SESSION_KEY⟩ :=
  load_empty_string_as_missing (envWith .emptyStr) rfl

/-- C5: `walletName` acceptance boundary — for a stored JSON record whose
other seven fields satisfy their constraints, load returns a present session
when `walletName` is omitted entirely, and returns absent when `walletName`
is present with a non-string value. -/
theorem walletName_boundary (env : Env) (j : Json)
    (wt : DashboardWalletType) (nw : DashboardNetworkEnv)
    (addr ck cd ci si : String)
    (hw : env.hasWindow = true)
    (hst : env.storage DASHBOARD_SESSION_KEY = some (.good j))
    (hrec : isObjectRecord j = true)
    (hwt : getField j "walletType" = some (.str (walletTypeToString wt)))
    (haddr : getField j "address" = some (.str addr)) (haddr0 : addr ≠ "")
    (hck : getField j "chainKey" = some (.str ck)) (hck0 : ck ≠ "")
    (hcd : getField j "chainDisplay" = some (.str cd)) (hcd0 : cd ≠ "")
    (hnw : getField j "network" = some (.str (networkToString nw)))
    (hci : getField j "chainId" = some (.str ci)) (hci0 : ci ≠ "")
    (hsi : getField j "signedInAt" = some (.str si)) (hsi0 : si ≠ "") :
    (getField j "walletName" = none →
      getDashboardSession env = some ⟨wt, addr, none, ck, cd, nw, ci, si⟩) ∧
    (∀ v, getField j "walletName" = some v → (∀ str, v ≠ .str str) →
      getDashboardSession env = none) := by
  constructor
  · intro hwn
    rw [getDashboardSession_eq_some_iff]
    refine ⟨hw, j, hst, ?_⟩
    rw [validateSession_eq_some_iff]
    refine ⟨hrec, ?_, ?_, ?_, ?_, ?_, ?_, ?_, ?_⟩
    · rw [hwt]; cases wt <;> rfl
    · rw [haddr]; exact decodeRequiredString_str haddr0
    · rw [hwn]; rfl
    · rw [hck]; exact decodeRequiredString_str hck0
    · rw [hcd]; exact decodeRequiredString_str hcd0
    · rw [hnw]; cases nw <;> rfl
    · rw [hci]; exact decodeRequiredString_str hci0
    · rw [hsi]; exact decodeRequiredString_str hsi0
  · intro v hv hvs
    exact getDashboardSession_eq_none_of_validate_none hst
      (validateSession_none_of_walletName (decodeOptionalString_not_str hv hvs))

/-- Witness for C5 at scenario A's record, which omits `walletName`. -/
theorem walletName_boundary_witness :
    getDashboardSession (envWith (.good sampleJson)) = some sampleSession :=
  (walletName_boundary (envWith (.good sampleJson)) sampleJson
    .keplr .mainnet "cosmos1abc" "archway" "Archway" "archway-1"
    "2024-01-01T00:00:00.000Z" rfl rfl rfl rfl rfl (by decide) rfl
    (by decide) rfl (by decide) rfl rfl (by decide) rfl (by decide)).1 rfl

/-- C7: single-slot overwrite — storing s1 and then s2 (capability present,
s2 valid) is the same environment as storing s2 alone; the fixed key then
holds exactly the serialization of s2, every other key is untouched, and a
subsequent load returns s2. -/
theorem store_overwrites (env : Env) (s1 s2 : DashboardSession)
    (hvalid : s2.Valid) (hw : env.hasWindow = true) :
    setDashboardSession s2 (setDashboardSession s1 env) =
      setDashboardSession s2 env ∧
    (setDashboardSession s2 (setDashboardSession s1 env)).storage
      DASHBOARD_SESSION_KEY = some (.good (sessionToJson s2)) ∧
    (∀ k, k ≠ DASHBOARD_SESSION_KEY →
      (setDashboardSession s2 (setDashboardSession s1 env)).storage k =
        env.storage k) ∧
    getDashboardSession (setDashboardSession s2 (setDashboardSession s1 env)) =
      some s2 := by
  rcases env with ⟨hwb, st⟩
  dsimp only at hw
  subst hw
  have hset : ∀ s : DashboardSession, ∀ f,
      setDashboardSession s ⟨true, f⟩ =
        ⟨true, setItem f DASHBOARD_SESSION_KEY (.good (sessionToJson s))⟩ :=
    fun s f => rfl
  rw [hset, hset, hset]
  refine ⟨?_, ?_, ?_, ?_⟩
  · have : setItem (setItem st DASHBOARD_SESSION_KEY
        (.good (sessionToJson s1))) DASHBOARD_SESSION_KEY
        (.good (sessionToJson s2)) =
        setItem st DASHBOARD_SESSION_KEY (.good (sessionToJson s2)) := by
      funext k
      by_cases hk : k = DASHBOARD_SESSION_KEY <;> simp [setItem, hk]
    rw [this]
  · simp [setItem]
  · intro k hk
    simp [setItem, hk]
  · rw [getDashboardSession_eq_some_iff]
    exact ⟨rfl, sessionToJson s2, by simp [setItem], roundTrip hvalid⟩

/-- Witness for C7: two successive stores into empty storage. -/
theorem store_overwrites_witness :
    getDashboardSession (setDashboardSession sampleSession2
      (setDashboardSession sampleSession emptyEnv)) = some sampleSession2 :=
  (store_overwrites emptyEnv sampleSession sampleSession2
    (by decide) rfl).2.2.2

/-- C8: clear idempotence — clearing twice equals clearing once; clearing
when nothing is stored under the fixed key leaves the environment unchanged;
load after a clear is always absent; and in particular load after store
followed by clear is absent. -/
theorem clear_idempotent (env : Env) (s : DashboardSession) :
    clearDashboardSession (clearDashboardSession env) =
      clearDashboardSession env ∧
    (env.storage DASHBOARD_SESSION_KEY = none →
      clearDashboardSession env = env) ∧
    getDashboardSession (clearDashboardSession env) = none ∧
    getDashboardSession
      (clearDashboardSession (setDashboardSession s env)) = none := by
  rcases env with ⟨hw, st⟩
  cases hw
  · exact ⟨rfl, fun _ => rfl, rfl, rfl⟩
  · have hclear : ∀ f, clearDashboardSession ⟨true, f⟩ =
        ⟨true, removeItem f DASHBOARD_SESSION_KEY⟩ := fun f => rfl
    refine ⟨?_, ?_, ?_, ?_⟩
    · rw [hclear, hclear]
      have : removeItem (removeItem st DASHBOARD_SESSION_KEY)
          DASHBOARD_SESSION_KEY = removeItem st DASHBOARD_SESSION_KEY := by
        funext k
        by_cases hk : k = DASHBOARD_SESSION_KEY <;> simp [removeItem, hk]
      rw [this]
    · intro h
      rw [hclear]
      have : removeItem st DASHBOARD_SESSION_KEY = st := by
        funext k
        by_cases hk : k = DASHBOARD_SESSION_KEY
        · subst hk
          simp only [removeItem, if_pos rfl]
          exact h.symm
        · simp [removeItem, hk]
      rw [this]
    · exact getDashboardSession_none_of_missing
        (by simp [clearDashboardSession, removeItem])
    · exact getDashboardSession_none_of_missing (by
        simp [setDashboardSession, clearDashboardSession, removeItem])

/-- Witness for C8: scenario D (store then clear then load) on empty
storage, plus the no-op case of clearing empty storage. -/
theorem clear_idempotent_witness :
    clearDashboardSession emptyEnv = emptyEnv ∧
    getDashboardSession
      (clearDashboardSession (setDashboardSession sampleSession emptyEnv)) =
      none :=
  ⟨(clear_idempotent emptyEnv sampleSession).2.1 rfl,
   (clear_idempotent emptyEnv sampleSession).2.2.2⟩

/-- C6 counterexample: a stored record with valid values for every schema
field plus an additional field `extra` is NOT rejected — load returns a
present session, refuting the claim that load returns absent on any record
that does not exactly match the schema. -/
theorem extra_field_accepted_counterexample :
    getDashboardSession (envWith (.good extraFieldJson)) = some sampleSession ∧
    getDashboardSession (envWith (.good extraFieldJson)) ≠ none := by
  refine ⟨rfl, ?_⟩
  intro h
  rw [show getDashboardSession (envWith (.good extraFieldJson)) =
    some sampleSession from rfl] at h
  exact Option.noConfusion h

/-- C6 amended: load validates only the eight schema fields and ignores any
additional fields — for every stored JSON record holding valid values for
the schema fields together with at least one field outside the schema, load
returns the present session assembled from the schema fields. -/
theorem load_ignores_extra_fields (env : Env) (l : List (String × Json))
    (wt : DashboardWalletType) (nw : DashboardNetworkEnv)
    (wn : Option String) (addr ck cd ci si : String)
    (hw : env.hasWindow = true)
    (hst : env.storage DASHBOARD_SESSION_KEY = some (.good (.obj l)))
    (_hextra : ∃ p, p ∈ l ∧ p.1 ∉ sessionSchemaKeys)
    (hwt : getField (.obj l) "walletType" =
      some (.str (walletTypeToString wt)))
    (haddr : getField (.obj l) "address" = some (.str addr))
    (haddr0 : addr ≠ "")
    (hwn : decodeOptionalString (getField (.obj l) "walletName") = some wn)
    (hck : getField (.obj l) "chainKey" = some (.str ck)) (hck0 : ck ≠ "")
    (hcd : getField (.obj l) "chainDisplay" = some (.str cd))
    (hcd0 : cd ≠ "")
    (hnw : getField (.obj l) "network" = some (.str (networkToString nw)))
    (hci : getField (.obj l) "chainId" = some (.str ci)) (hci0 : ci ≠ "")
    (hsi : getField (.obj l) "signedInAt" = some (.str si))
    (hsi0 : si ≠ "") :
    getDashboardSession env = some ⟨wt, addr, wn, ck, cd, nw, ci, si⟩ := by
  rw [getDashboardSession_eq_some_iff]
  refine ⟨hw, .obj l, hst, ?_⟩
  rw [validateSession_eq_some_iff]
  refine ⟨rfl, ?_, ?_, hwn, ?_, ?_, ?_, ?_, ?_⟩
  · rw [hwt]; cases wt <;> rfl
  · rw [haddr]; exact decodeRequiredString_str haddr0
  · rw [hck]; exact decodeRequiredString_str hck0
  · rw [hcd]; exact decodeRequiredString_str hcd0
  · rw [hnw]; cases nw <;> rfl
  · rw [hci]; exact decodeRequiredString_str hci0
  · rw [hsi]; exact decodeRequiredString_str hsi0

/-- Witness for the amended C6 at the record with the `extra` field. -/
theorem load_ignores_extra_fields_witness :
    getDashboardSession (envWith (.good extraFieldJson)) =
      some sampleSession :=
  load_ignores_extra_fields (envWith (.good extraFieldJson))
    [("walletType", .str "keplr"), ("address", .str "cosmos1abc"),
     ("chainKey", .str "archway"), ("chainDisplay", .str "Archway"),
     ("network", .str "mainnet"), ("chainId", .str "archway-1"),
     ("signedInAt", .str "2024-01-01T00:00:00.000Z"),
     ("extra", .str "surprise")]
    .keplr .mainnet none "cosmos1abc" "archway" "Archway" "archway-1"
    "2024-01-01T00:00:00.000Z" rfl rfl
    ⟨("extra", .str "surprise"), by simp, by decide⟩
    rfl rfl (by decide) rfl rfl (by decide) rfl (by decide) rfl rfl
    (by decide) rfl (by decide)
